import Mathlib

/-!
# Trend aggregation engine: shallow embedding and verification

This file embeds the trend-collection system of the repository
(`src/app/page.tsx`, the API GET route, and the `@/lib/trends`
collection-and-normalization engine described by the specification) and
proves the spec's claims about it.

The GET route handler is embedded directly from the source
(`src/app/page.tsx`, lines 495-507).  The `@/lib/trends` module
(`collectTrendSnapshot`, the normalizer and the three source adapters) is
not present under `src/`; those definitions are modelled from the spec,
as marked in their doc comments.
-/

namespace Trends

/-- JavaScript number values as they occur in this program: `Number.parseInt`
produces either an integer or `NaN`.  (No fractional values arise in the
embedded code paths.) -/
inductive JsNumber where
  | nan : JsNumber
  | int : Int → JsNumber
deriving DecidableEq, Repr

/-- JavaScript `Math.min` on `JsNumber`: `NaN` is absorbing. -/
def jsMin : JsNumber → JsNumber → JsNumber
  | .nan, _ => .nan
  | _, .nan => .nan
  | .int a, .int b => .int (min a b)

/-- JavaScript `list.slice(0, n)` / truncation to a `JsNumber` bound:
a `NaN` bound yields the empty list, an integer bound `n` keeps the first
`n` elements (none when `n <= 0`). -/
def jsTake (n : JsNumber) (l : List α) : List α :=
  match n with
  | .nan => []
  | .int i => l.take i.toNat

/-- `Number.parseInt(s, 10)`: skip leading whitespace, read an optional
sign and then the longest prefix of decimal digits; `NaN` when no digit
is found. -/
def jsParseInt (s : String) : JsNumber :=
  let cs := s.toList.dropWhile (fun c => c.isWhitespace)
  let signAndRest : Int × List Char :=
    match cs with
    | '-' :: t => (-1, t)
    | '+' :: t => (1, t)
    | t => (1, t)
  let digits := signAndRest.2.takeWhile (fun c => c.isDigit)
  if digits.isEmpty then .nan
  else .int (signAndRest.1 * (digits.foldl (fun a c => a * 10 + ((c.toNat - '0'.toNat : Nat) : Int)) 0))

/-- Daily-trend record (spec section 3): `{keyword, trafficLabel?, snippet?, articleUrl?}`. -/
structure DailyTrendRecord where
  keyword : String
  trafficLabel : Option String
  snippet : Option String
  articleUrl : Option String
deriving DecidableEq, Repr

/-- Realtime-trend record (spec section 3): `{keyword, headline?, source?, articleUrl?}`. -/
structure RealtimeTrendRecord where
  keyword : String
  headline : Option String
  source : Option String
  articleUrl : Option String
deriving DecidableEq, Repr

/-- Video-trend record (spec section 3): `{keyword, channel?, viewsLabel?, videoUrl (required)}`. -/
structure VideoTrendRecord where
  keyword : String
  channel : Option String
  viewsLabel : Option String
  videoUrl : String
deriving DecidableEq, Repr

/-- Source tag of a unified keyword (spec section 3). -/
inductive KeywordSource where
  | googleDaily : KeywordSource
  | googleRealtime : KeywordSource
  | youtube : KeywordSource
  | multi : KeywordSource
deriving DecidableEq, Repr

/-- Unified keyword (spec section 3): `{keyword, source, details?, url?}`. -/
structure UnifiedKeyword where
  keyword : String
  source : KeywordSource
  details : Option String
  url : Option String
deriving DecidableEq, Repr

/-- The assembled snapshot (spec section 3). -/
structure TrendSnapshot where
  generatedAt : String
  keywords : List UnifiedKeyword
  googleDaily : List DailyTrendRecord
  googleRealtime : List RealtimeTrendRecord
  youtube : List VideoTrendRecord
deriving DecidableEq, Repr

/-- Modelled from the spec (section 4.2 step 2, glossary "canonical key";
`@/lib/trends` is not under `src/`): canonicalize a keyword for
deduplication comparison — trim whitespace, case-fold, collapse repeated
interior whitespace. -/
def canonicalize (s : String) : String :=
  String.mk
    (List.intercalate [' ']
      (((s.data.map Char.toLower).splitOnP (fun c => c.isWhitespace)).filter
        (fun w => w ≠ [])))

/-- A candidate entry in the normalizer's walk (spec section 4.2 step 1). -/
structure Candidate where
  keyword : String
  source : KeywordSource
  details : Option String
  url : Option String
deriving DecidableEq, Repr

/-- Modelled from the spec (section 4.2 step 3): a realtime record's
candidate carries its headline as details and its articleUrl as url. -/
def candOfRealtime (r : RealtimeTrendRecord) : Candidate :=
  ⟨r.keyword, .googleRealtime, r.headline, r.articleUrl⟩

/-- Modelled from the spec (section 4.2 step 3): a daily record's
candidate carries its snippet as details and its articleUrl as url. -/
def candOfDaily (d : DailyTrendRecord) : Candidate :=
  ⟨d.keyword, .googleDaily, d.snippet, d.articleUrl⟩

/-- Modelled from the spec (section 4.2 step 3): a video record's
candidate carries its viewsLabel as details and its (required) videoUrl
as url. -/
def candOfVideo (v : VideoTrendRecord) : Candidate :=
  ⟨v.keyword, .youtube, v.viewsLabel, some v.videoUrl⟩

/-- Modelled from the spec (section 4.2 steps 3-4): insert one candidate
into the accumulated unified list.  First sight of a canonical key
appends a new UnifiedKeyword; a repeat sighting from a different source
upgrades the existing entry's tag to `multi` without touching its
`details`/`url`. -/
def insertCand (acc : List UnifiedKeyword) (c : Candidate) : List UnifiedKeyword :=
  if acc.any (fun u => canonicalize u.keyword == canonicalize c.keyword) then
    acc.map (fun u =>
      if canonicalize u.keyword == canonicalize c.keyword && u.source != c.source then
        { u with source := .multi }
      else u)
  else
    acc ++ [⟨c.keyword, c.source, c.details, c.url⟩]

/-- Modelled from the spec (section 4.2, `@/lib/trends` not under `src/`):
`normalize(daily, realtime, youtube, limit)` — walk realtime, then
daily, then youtube candidates in order, merge equal canonical keys,
and truncate to `limit` entries in first-seen order. -/
def normalize (daily : List DailyTrendRecord) (realtime : List RealtimeTrendRecord)
    (youtube : List VideoTrendRecord) (limit : JsNumber) : List UnifiedKeyword :=
  let cands :=
    realtime.map candOfRealtime ++ daily.map candOfDaily ++ youtube.map candOfVideo
  jsTake limit (cands.foldl insertCand [])

/-- Upstream daily-feed item as fetched, before adapter validation:
every field may be missing. -/
structure RawDailyItem where
  title : Option String
  trafficLabel : Option String
  snippet : Option String
  articleUrl : Option String
deriving DecidableEq, Repr

/-- Upstream realtime-feed item as fetched, before adapter validation. -/
structure RawRealtimeItem where
  title : Option String
  headline : Option String
  newsSource : Option String
  articleUrl : Option String
deriving DecidableEq, Repr

/-- Upstream video-feed item as fetched, before adapter validation:
the watch URL may be missing. -/
structure RawVideoItem where
  title : Option String
  channel : Option String
  viewsLabel : Option String
  videoUrl : Option String
deriving DecidableEq, Repr

/-- Modelled from the spec (section 4.1): parse one daily item, dropping
it when the mandatory keyword/title is missing. -/
def parseDailyItem (it : RawDailyItem) : Option DailyTrendRecord :=
  match it.title with
  | some t => some ⟨t, it.trafficLabel, it.snippet, it.articleUrl⟩
  | none => none

/-- Modelled from the spec (section 4.1): parse one realtime item,
dropping it when the mandatory keyword/title is missing. -/
def parseRealtimeItem (it : RawRealtimeItem) : Option RealtimeTrendRecord :=
  match it.title with
  | some t => some ⟨t, it.headline, it.newsSource, it.articleUrl⟩
  | none => none

/-- Modelled from the spec (section 4.1): parse one video item, dropping
it when the mandatory keyword/title or the mandatory watch URL is
missing. -/
def parseVideoItem (it : RawVideoItem) : Option VideoTrendRecord :=
  match it.title, it.videoUrl with
  | some t, some u => some ⟨t, it.channel, it.viewsLabel, u⟩
  | _, _ => none

/-- Modelled from the spec (section 4.1, `DailyTrendAdapter`): parse the
fetched payload, drop malformed items, truncate to `limit` preserving
upstream order. -/
def parseDailyFeed (raw : List RawDailyItem) (limit : JsNumber) : List DailyTrendRecord :=
  jsTake limit (raw.filterMap parseDailyItem)

/-- Modelled from the spec (section 4.1, `RealtimeTrendAdapter`). -/
def parseRealtimeFeed (raw : List RawRealtimeItem) (limit : JsNumber) : List RealtimeTrendRecord :=
  jsTake limit (raw.filterMap parseRealtimeItem)

/-- Modelled from the spec (section 4.1, `VideoTrendAdapter`). -/
def parseVideoFeed (raw : List RawVideoItem) (limit : JsNumber) : List VideoTrendRecord :=
  jsTake limit (raw.filterMap parseVideoItem)

/-- Modelled from the spec (section 4.3): the fixed default region code
(the dashboard's default region is "US"). -/
def DEFAULT_GEO : String := "US"

/-- Modelled from the spec (section 4.3): the fixed default depth (the
dashboard's default keyword depth is 15). -/
def DEFAULT_LIMIT : Int := 15

/-- Modelled from the spec (section 4.3): the hard cap on the depth,
"capped at 30". -/
def MAX_LIMIT : Int := 30

/-- Modelled from the spec (section 4.3): the effective depth — the
caller's limit when present (the default otherwise), bounded by the hard
cap with JavaScript `Math.min` semantics. -/
def effectiveLimit (limit : Option JsNumber) : JsNumber :=
  jsMin (limit.getD (.int DEFAULT_LIMIT)) (.int MAX_LIMIT)

/-- Options accepted by the Assembler (spec section 4.3):
`{geo?: string, limit?: number}`. -/
structure CollectOptions where
  geo : Option String
  limit : Option JsNumber
deriving DecidableEq, Repr

/-- Modelled from the spec (section 4.3): the Assembler awaits the daily
adapter's outcome independently, converting a rejection into an empty
record list for that source. -/
def caughtDaily (f : Except String (List RawDailyItem)) (lim : JsNumber) :
    List DailyTrendRecord :=
  match f with
  | .ok raw => parseDailyFeed raw lim
  | .error _ => []

/-- Modelled from the spec (section 4.3): per-source catch for the
realtime adapter. -/
def caughtRealtime (f : Except String (List RawRealtimeItem)) (lim : JsNumber) :
    List RealtimeTrendRecord :=
  match f with
  | .ok raw => parseRealtimeFeed raw lim
  | .error _ => []

/-- Modelled from the spec (section 4.3): per-source catch for the
video adapter. -/
def caughtVideo (f : Except String (List RawVideoItem)) (lim : JsNumber) :
    List VideoTrendRecord :=
  match f with
  | .ok raw => parseVideoFeed raw lim
  | .error _ => []

/-- Modelled from the spec (section 4.3, `@/lib/trends` not under
`src/`): `collect` / `collectTrendSnapshot`.  The three adapter fetches
are represented by their settled outcomes (`Except`): a rejection is
caught and converted to an empty record list for that source; the three
parsed lists are fed to the normalizer with the same effective limit;
`generatedAt` is the time `now` at finalization, after all adapters have
settled.  The function is total: in this pure model the Assembler's
orchestration has no failure of its own, matching the spec's rule that
only an orchestration defect may propagate. -/
def collectTrendSnapshot (opts : CollectOptions)
    (dailyFetch : Except String (List RawDailyItem))
    (realtimeFetch : Except String (List RawRealtimeItem))
    (videoFetch : Except String (List RawVideoItem))
    (now : String) : TrendSnapshot :=
  let lim := effectiveLimit opts.limit
  { generatedAt := now
    keywords :=
      normalize (caughtDaily dailyFetch lim) (caughtRealtime realtimeFetch lim)
        (caughtVideo videoFetch lim) lim
    googleDaily := caughtDaily dailyFetch lim
    googleRealtime := caughtRealtime realtimeFetch lim
    youtube := caughtVideo videoFetch lim }

/-- The HTTP response produced by the GET route (`src/app/page.tsx`,
lines 502-506): `Response.json(snapshot, {headers: {"Cache-Control":
"no-store, must-revalidate"}})`.  The JSON body is represented by the
snapshot it serializes. -/
structure ApiResponse where
  body : TrendSnapshot
  cacheControl : String
deriving DecidableEq, Repr

/-- `src/app/page.tsx` lines 497-498: `limitParam` is the raw query value
(`null` from `searchParams.get` becomes `undefined`, i.e. `none`), and
`limit = limitParam ? Number.parseInt(limitParam, 10) : undefined` —
JavaScript truthiness makes both an absent and an empty-string parameter
yield `undefined`. -/
def parseLimitQuery (limitQ : Option String) : Option JsNumber :=
  match limitQ with
  | some s => if s.isEmpty then none else some (jsParseInt s)
  | none => none

/-- `src/app/page.tsx` lines 495-507, the API route handler `GET`.
`geoQ` and `limitQ` are `searchParams.get("geo")`/`.get("limit")` with
`null` mapped to `none` (the source's `?? undefined`).  The upstream
fetch outcomes and the finalization time are passed through to
`collectTrendSnapshot`. -/
def GET (geoQ limitQ : Option String)
    (dailyFetch : Except String (List RawDailyItem))
    (realtimeFetch : Except String (List RawRealtimeItem))
    (videoFetch : Except String (List RawVideoItem))
    (now : String) : ApiResponse :=
  let geo : Option String := geoQ
  let limit : Option JsNumber := parseLimitQuery limitQ
  let snapshot := collectTrendSnapshot ⟨geo, limit⟩ dailyFetch realtimeFetch videoFetch now
  ⟨snapshot, "no-store, must-revalidate"⟩

end Trends

namespace Trends

theorem jsTake_nil (n : JsNumber) : jsTake n ([] : List α) = [] := by
  cases n <;> simp [jsTake]

theorem normalize_nil (limit : JsNumber) : normalize [] [] [] limit = [] := by
  simp [Trends.normalize, jsTake_nil]

theorem length_jsTake_le {n : Int} (h : 0 ≤ n) (l : List α) :
    ((jsTake (.int n) l).length : Int) ≤ n := by
  simp only [jsTake, List.length_take]
  calc ((min n.toNat l.length : Nat) : Int) ≤ ((n.toNat : Nat) : Int) := by
        exact_mod_cast Nat.min_le_left _ _
    _ = n := Int.toNat_of_nonneg h

theorem length_normalize_le {n : Int} (h : 0 ≤ n)
    (daily : List DailyTrendRecord) (realtime : List RealtimeTrendRecord)
    (youtube : List VideoTrendRecord) :
    ((normalize daily realtime youtube (.int n)).length : Int) ≤ n := by
  simp only [Trends.normalize]
  exact length_jsTake_le h _

theorem length_caughtDaily_le {n : Int} (h : 0 ≤ n)
    (f : Except String (List RawDailyItem)) :
    ((caughtDaily f (.int n)).length : Int) ≤ n := by
  cases f with
  | error e => simpa [caughtDaily] using h
  | ok raw => exact length_jsTake_le h _

theorem length_caughtRealtime_le {n : Int} (h : 0 ≤ n)
    (f : Except String (List RawRealtimeItem)) :
    ((caughtRealtime f (.int n)).length : Int) ≤ n := by
  cases f with
  | error e => simpa [caughtRealtime] using h
  | ok raw => exact length_jsTake_le h _

theorem length_caughtVideo_le {n : Int} (h : 0 ≤ n)
    (f : Except String (List RawVideoItem)) :
    ((caughtVideo f (.int n)).length : Int) ≤ n := by
  cases f with
  | error e => simpa [caughtVideo] using h
  | ok raw => exact length_jsTake_le h _

/-- C1: for every effective limit `n >= 0`, the snapshot's unified
keyword list and each of the three raw lists have length at most `n`. -/
theorem collect_respects_limit
    (geo : Option String) (limitOpt : Option JsNumber)
    (dailyFetch : Except String (List RawDailyItem))
    (realtimeFetch : Except String (List RawRealtimeItem))
    (videoFetch : Except String (List RawVideoItem))
    (now : String) (n : Int)
    (heff : effectiveLimit limitOpt = .int n) (hn : 0 ≤ n) :
    (((collectTrendSnapshot ⟨geo, limitOpt⟩ dailyFetch realtimeFetch videoFetch now).keywords.length : Int) ≤ n) ∧
    (((collectTrendSnapshot ⟨geo, limitOpt⟩ dailyFetch realtimeFetch videoFetch now).googleDaily.length : Int) ≤ n) ∧
    (((collectTrendSnapshot ⟨geo, limitOpt⟩ dailyFetch realtimeFetch videoFetch now).googleRealtime.length : Int) ≤ n) ∧
    (((collectTrendSnapshot ⟨geo, limitOpt⟩ dailyFetch realtimeFetch videoFetch now).youtube.length : Int) ≤ n) := by
  refine ⟨?_, ?_, ?_, ?_⟩ <;>
    simp only [collectTrendSnapshot, heff]
  · exact length_normalize_le hn _ _ _
  · exact length_caughtDaily_le hn _
  · exact length_caughtRealtime_le hn _
  · exact length_caughtVideo_le hn _

/-- Witness for C1 at concrete inputs. -/
theorem collect_respects_limit_witness :
    ((collectTrendSnapshot ⟨some "US", some (.int 2)⟩
        (.ok [⟨some "A", none, none, none⟩, ⟨some "B", none, none, none⟩, ⟨some "C", none, none, none⟩])
        (.ok [⟨some "D", none, none, none⟩])
        (.error "boom") "t").keywords.length : Int) ≤ 2 :=
  (collect_respects_limit (some "US") (some (.int 2))
    (.ok [⟨some "A", none, none, none⟩, ⟨some "B", none, none, none⟩, ⟨some "C", none, none, none⟩])
    (.ok [⟨some "D", none, none, none⟩])
    (.error "boom") "t" 2 (by decide) (by decide)).1

/-- C2: if all three source adapters reject, `collectTrendSnapshot` still
produces (in the model: is a total function yielding) a structurally
valid TrendSnapshot whose three raw lists and unified keyword list are
all empty. -/
theorem collect_total_failure_yields_empty_snapshot
    (geo : Option String) (limit : Option JsNumber)
    (e1 e2 e3 : String) (now : String) :
    collectTrendSnapshot ⟨geo, limit⟩ (.error e1) (.error e2) (.error e3) now =
      { generatedAt := now, keywords := [], googleDaily := [],
        googleRealtime := [], youtube := [] } := by
  simp [collectTrendSnapshot, caughtDaily, caughtRealtime, caughtVideo, normalize_nil]

/-- C3: if the video adapter rejects while the other two succeed,
`collectTrendSnapshot` yields `youtube = []` while the other two
sources' parsed results are preserved intact. -/
theorem collect_video_failure_preserves_others
    (geo : Option String) (limit : Option JsNumber)
    (dRaw : List RawDailyItem) (rRaw : List RawRealtimeItem)
    (e : String) (now : String) :
    (collectTrendSnapshot ⟨geo, limit⟩ (.ok dRaw) (.ok rRaw) (.error e) now).youtube = [] ∧
    (collectTrendSnapshot ⟨geo, limit⟩ (.ok dRaw) (.ok rRaw) (.error e) now).googleDaily =
      parseDailyFeed dRaw (effectiveLimit limit) ∧
    (collectTrendSnapshot ⟨geo, limit⟩ (.ok dRaw) (.ok rRaw) (.error e) now).googleRealtime =
      parseRealtimeFeed rRaw (effectiveLimit limit) := by
  exact ⟨rfl, rfl, rfl⟩

/-- C7: the normalizer never errors on degenerate input — all inputs
empty yields the empty unified list for every limit, and any
non-positive limit yields the empty list for all inputs. -/
theorem normalize_degenerate_inputs :
    (∀ limit : JsNumber, normalize [] [] [] limit = []) ∧
    (∀ (daily : List DailyTrendRecord) (realtime : List RealtimeTrendRecord)
       (youtube : List VideoTrendRecord) (n : Int), n ≤ 0 →
       normalize daily realtime youtube (.int n) = []) := by
  refine ⟨normalize_nil, fun daily realtime youtube n hn => ?_⟩
  simp [Trends.normalize, jsTake, Int.toNat_of_nonpos hn]

/-- Witness for C7 at concrete inputs. -/
theorem normalize_degenerate_inputs_witness :
    normalize [] [] [] (.int 3) = [] ∧
    normalize [⟨"Eclipse", none, none, none⟩] [] [] (.int (-1)) = [] :=
  ⟨normalize_degenerate_inputs.1 (.int 3),
   normalize_degenerate_inputs.2 [⟨"Eclipse", none, none, none⟩] [] [] (-1) (by decide)⟩

/-- C8: `collectTrendSnapshot` is deterministic modulo the timestamp —
two invocations on identical inputs agree on `keywords`, `googleDaily`,
`googleRealtime` and `youtube`, and each snapshot's `generatedAt` is
exactly the single finalization time of that invocation. -/
theorem collect_deterministic_modulo_timestamp
    (opts : CollectOptions)
    (dailyFetch : Except String (List RawDailyItem))
    (realtimeFetch : Except String (List RawRealtimeItem))
    (videoFetch : Except String (List RawVideoItem))
    (t1 t2 : String) :
    (collectTrendSnapshot opts dailyFetch realtimeFetch videoFetch t1).keywords =
      (collectTrendSnapshot opts dailyFetch realtimeFetch videoFetch t2).keywords ∧
    (collectTrendSnapshot opts dailyFetch realtimeFetch videoFetch t1).googleDaily =
      (collectTrendSnapshot opts dailyFetch realtimeFetch videoFetch t2).googleDaily ∧
    (collectTrendSnapshot opts dailyFetch realtimeFetch videoFetch t1).googleRealtime =
      (collectTrendSnapshot opts dailyFetch realtimeFetch videoFetch t2).googleRealtime ∧
    (collectTrendSnapshot opts dailyFetch realtimeFetch videoFetch t1).youtube =
      (collectTrendSnapshot opts dailyFetch realtimeFetch videoFetch t2).youtube ∧
    (collectTrendSnapshot opts dailyFetch realtimeFetch videoFetch t1).generatedAt = t1 ∧
    (collectTrendSnapshot opts dailyFetch realtimeFetch videoFetch t2).generatedAt = t2 :=
  ⟨rfl, rfl, rfl, rfl, rfl, rfl⟩


theorem normalize_pair_merge (d : DailyTrendRecord) (r : RealtimeTrendRecord)
    {n : Int} (hc : canonicalize d.keyword = canonicalize r.keyword) (hn : 1 ≤ n) :
    normalize [d] [r] [] (.int n) =
      [⟨r.keyword, .multi, r.headline, r.articleUrl⟩] := by
  have h1 : (1 : Nat) ≤ n.toNat := by
    have h := Int.toNat_le_toNat hn
    simpa using h
  simp [Trends.normalize, insertCand, candOfRealtime, candOfDaily, hc, jsTake,
    List.take_of_length_le, h1]

/-- C4: two records from different sources whose keywords agree after
canonicalization merge into exactly one unified entry, tagged `multi`. -/
theorem normalize_merges_cross_source_duplicates
    (d : DailyTrendRecord) (r : RealtimeTrendRecord) (n : Int)
    (hc : canonicalize d.keyword = canonicalize r.keyword) (hn : 1 ≤ n) :
    (normalize [d] [r] [] (.int n)).length = 1 ∧
    ∀ u ∈ normalize [d] [r] [] (.int n),
      canonicalize u.keyword = canonicalize d.keyword ∧ u.source = .multi := by
  rw [normalize_pair_merge d r hc hn]
  refine ⟨rfl, fun u hu => ?_⟩
  have hu' : u = ⟨r.keyword, .multi, r.headline, r.articleUrl⟩ := by
    simpa using hu
  subst hu'
  exact ⟨hc.symm, rfl⟩

/-- Witness for C4 at the spec's "Super Bowl" example. -/
theorem normalize_merges_cross_source_duplicates_witness :
    (normalize [⟨"Super Bowl", none, none, none⟩]
        [⟨"super bowl", none, none, none⟩] [] (.int 5)).length = 1 ∧
    ∀ u ∈ normalize [⟨"Super Bowl", none, none, none⟩]
        [⟨"super bowl", none, none, none⟩] [] (.int 5),
      canonicalize u.keyword = canonicalize "Super Bowl" ∧ u.source = .multi :=
  normalize_merges_cross_source_duplicates
    ⟨"Super Bowl", none, none, none⟩ ⟨"super bowl", none, none, none⟩ 5
    (by decide) (by decide)

/-- C5: when the same canonical keyword is present in the realtime and
daily inputs, the merged entry's `details`/`url` are the realtime
record's fields; and in general a repeat sighting never overwrites an
existing entry's keyword/details/url (`insertCand` either leaves all
display fields unchanged or appends a new entry). -/
theorem normalize_realtime_fields_win
    (d : DailyTrendRecord) (r : RealtimeTrendRecord) (n : Int)
    (hc : canonicalize d.keyword = canonicalize r.keyword) (hn : 1 ≤ n) :
    normalize [d] [r] [] (.int n) =
      [⟨r.keyword, .multi, r.headline, r.articleUrl⟩] ∧
    ∀ (acc : List UnifiedKeyword) (c : Candidate),
      List.map (fun u => (u.keyword, u.details, u.url)) (insertCand acc c) =
        List.map (fun u => (u.keyword, u.details, u.url)) acc ∨
      List.map (fun u => (u.keyword, u.details, u.url)) (insertCand acc c) =
        List.map (fun u => (u.keyword, u.details, u.url)) acc ++
          [(c.keyword, c.details, c.url)] := by
  refine ⟨normalize_pair_merge d r hc hn, fun acc c => ?_⟩
  by_cases h : (acc.any fun u => canonicalize u.keyword == canonicalize c.keyword) = true
  · left
    simp only [insertCand]
    rw [if_pos h, List.map_map]
    refine List.map_congr_left (fun u hu => ?_)
    by_cases hcond :
        (canonicalize u.keyword == canonicalize c.keyword && u.source != c.source) = true
    · simp [Function.comp, hcond]
    · simp [Function.comp, hcond]
  · right
    simp only [insertCand]
    rw [if_neg h]
    simp

/-- Witness for C5 at the spec's priority example. -/
theorem normalize_realtime_fields_win_witness :
    normalize [⟨"Eclipse", none, some "daily snip", some "daily url"⟩]
        [⟨"eclipse", some "rt head", none, some "rt url"⟩] [] (.int 5) =
      [⟨"eclipse", .multi, some "rt head", some "rt url"⟩] :=
  (normalize_realtime_fields_win
    ⟨"Eclipse", none, some "daily snip", some "daily url"⟩
    ⟨"eclipse", some "rt head", none, some "rt url"⟩ 5
    (by decide) (by decide)).1

theorem parseVideoItem_eq_none_of_noUrl {it : RawVideoItem}
    (h : it.videoUrl = none) : parseVideoItem it = none := by
  cases ht : it.title <;> simp [parseVideoItem, h, ht]

theorem parseVideoItem_eq_none_of_noTitle {it : RawVideoItem}
    (h : it.title = none) : parseVideoItem it = none := by
  cases hu : it.videoUrl <;> simp [parseVideoItem, h, hu]

/-- C6: a video record lacking its mandatory watch URL (and, in any
feed, a record lacking its mandatory keyword/title) contributes nothing
to the parsed list, and every record in the parsed `youtube` list stems
from an upstream item whose title and watch URL were both present. -/
theorem adapters_drop_malformed_records :
    (∀ (pre post : List RawVideoItem) (it : RawVideoItem) (lim : JsNumber),
      it.videoUrl = none →
      parseVideoFeed (pre ++ it :: post) lim = parseVideoFeed (pre ++ post) lim) ∧
    (∀ (pre post : List RawVideoItem) (it : RawVideoItem) (lim : JsNumber),
      it.title = none →
      parseVideoFeed (pre ++ it :: post) lim = parseVideoFeed (pre ++ post) lim) ∧
    (∀ (pre post : List RawDailyItem) (it : RawDailyItem) (lim : JsNumber),
      it.title = none →
      parseDailyFeed (pre ++ it :: post) lim = parseDailyFeed (pre ++ post) lim) ∧
    (∀ (pre post : List RawRealtimeItem) (it : RawRealtimeItem) (lim : JsNumber),
      it.title = none →
      parseRealtimeFeed (pre ++ it :: post) lim = parseRealtimeFeed (pre ++ post) lim) ∧
    (∀ (raw : List RawVideoItem) (lim : JsNumber) (v : VideoTrendRecord),
      v ∈ parseVideoFeed raw lim →
      ∃ it, it ∈ raw ∧ it.title = some v.keyword ∧ it.videoUrl = some v.videoUrl) := by
  refine ⟨?_, ?_, ?_, ?_, ?_⟩
  · intro pre post it lim h
    simp [parseVideoFeed, List.filterMap_append, List.filterMap_cons,
      parseVideoItem_eq_none_of_noUrl h]
  · intro pre post it lim h
    simp [parseVideoFeed, List.filterMap_append, List.filterMap_cons,
      parseVideoItem_eq_none_of_noTitle h]
  · intro pre post it lim h
    simp [parseDailyFeed, List.filterMap_append, List.filterMap_cons,
      parseDailyItem, h]
  · intro pre post it lim h
    simp [parseRealtimeFeed, List.filterMap_append, List.filterMap_cons,
      parseRealtimeItem, h]
  · intro raw lim v hv
    have hv' : v ∈ raw.filterMap parseVideoItem := by
      cases lim with
      | nan => simp [parseVideoFeed, jsTake] at hv
      | int i =>
        exact List.mem_of_mem_take (by simpa [parseVideoFeed, jsTake] using hv)
    rcases List.mem_filterMap.mp hv' with ⟨it, hmem, hit⟩
    refine ⟨it, hmem, ?_⟩
    cases ht : it.title with
    | none => rw [parseVideoItem_eq_none_of_noTitle ht] at hit; cases hit
    | some t =>
      cases hu : it.videoUrl with
      | none => rw [parseVideoItem_eq_none_of_noUrl hu] at hit; cases hit
      | some u =>
        rw [parseVideoItem, ht, hu] at hit
        cases hit
        exact ⟨rfl, rfl⟩

/-- Witness for C6: a concrete feed where the URL-less record vanishes. -/
theorem adapters_drop_malformed_records_witness :
    parseVideoFeed [⟨some "Cats", some "ch", none, some "watch-url"⟩,
        ⟨some "Dogs", none, none, none⟩] (.int 10) =
      parseVideoFeed [⟨some "Cats", some "ch", none, some "watch-url"⟩] (.int 10) :=
  adapters_drop_malformed_records.1
    [⟨some "Cats", some "ch", none, some "watch-url"⟩] []
    ⟨some "Dogs", none, none, none⟩ (.int 10) rfl

/-- C9: the GET handler reads the optional `geo` and `limit` query
parameters, forwards them (absent parameters become `undefined`, so the
Assembler applies its fixed default limit), returns the assembled
TrendSnapshot as the JSON body, and marks the response non-cacheable. -/
theorem GET_route_contract (geoQ limitQ : Option String)
    (dailyFetch : Except String (List RawDailyItem))
    (realtimeFetch : Except String (List RawRealtimeItem))
    (videoFetch : Except String (List RawVideoItem))
    (now : String) :
    GET geoQ limitQ dailyFetch realtimeFetch videoFetch now =
      ⟨collectTrendSnapshot ⟨geoQ, parseLimitQuery limitQ⟩
          dailyFetch realtimeFetch videoFetch now,
        "no-store, must-revalidate"⟩ ∧
    parseLimitQuery none = none ∧
    effectiveLimit none = .int DEFAULT_LIMIT :=
  ⟨rfl, rfl, by decide⟩

/-- C10: the GET handler forwards whatever `Number.parseInt` yields for
any non-empty `limit` string — `"0"` becomes `0` (not the default) and
`"abc"` becomes `NaN` — while an absent or empty `limit` parameter
becomes `undefined`; the parsed value is handed to
`collectTrendSnapshot` unchanged. -/
theorem GET_limit_parsing_forwards_raw :
    parseLimitQuery (some "0") = some (.int 0) ∧
    parseLimitQuery (some "abc") = some .nan ∧
    parseLimitQuery none = none ∧
    parseLimitQuery (some "") = none ∧
    (∀ s : String, s.isEmpty = false →
      parseLimitQuery (some s) = some (jsParseInt s)) ∧
    (∀ (geoQ limitQ : Option String)
       (dailyFetch : Except String (List RawDailyItem))
       (realtimeFetch : Except String (List RawRealtimeItem))
       (videoFetch : Except String (List RawVideoItem))
       (now : String),
      (GET geoQ limitQ dailyFetch realtimeFetch videoFetch now).body =
        collectTrendSnapshot ⟨geoQ, parseLimitQuery limitQ⟩
          dailyFetch realtimeFetch videoFetch now) := by
  refine ⟨by decide, by decide, rfl, rfl, ?_, fun _ _ _ _ _ _ => rfl⟩
  intro s hs
  simp [parseLimitQuery, hs]

/-- Witness for C10 at a concrete non-empty limit string. -/
theorem GET_limit_parsing_forwards_raw_witness :
    parseLimitQuery (some "7") = some (jsParseInt "7") :=
  GET_limit_parsing_forwards_raw.2.2.2.2.1 "7" rfl

end Trends
